import Mathlib

/-!
Verification development for the idrc-funding-scraper repository.

The two relevant scripts are embedded shallowly:
* `new.py` — the scholarly-impact enrichment pipeline (identifier resolution,
  altmetric summary, open-access cascade, classification, per-paper loop);
* `scraping.py` — the funding aggregator (deduplicated combination step).

Python strings are embedded as `List Char` (`Str`), with Python truthiness
(`None` and the empty string are falsy) made explicit.  Every function that
performs an HTTP call is embedded as a function of an explicit response
environment: `none` models a raised exception (network error or JSON parse
failure), `some (status, body)` models a reply with the given status code and
the parts of the body the source reads.  All definitions are structurally
recursive so that concrete inputs evaluate by `decide` / `rfl`.
-/

abbrev Str := List Char

/-- Python truthiness of an optional string: `None` and `""` are falsy. -/
def pyTruthy : Option Str → Bool
  | some (_ :: _) => true
  | _ => false

/-- Python `str.lower` (restricted to the ASCII range, as used here). -/
def lowerStr (s : Str) : Str := s.map Char.toLower

/-- `strStarts pat s` is Python `s.startswith(pat)`. -/
def strStarts : Str → Str → Bool
  | [], _ => true
  | _ :: _, [] => false
  | p :: ps, c :: cs => if p = c then strStarts ps cs else false

/-- `pyIn pat s` is Python `pat in s` (substring containment). -/
def pyIn (pat : Str) : Str → Bool
  | [] => strStarts pat []
  | c :: t => strStarts pat (c :: t) || pyIn pat t

/-- Helper for `removeAll`: removes every leftmost non-overlapping occurrence
of the pattern `p :: ps`, fuelled by the length of the scanned string so the
recursion is structural. -/
def removeAllAux (p : Char) (ps : Str) : Nat → Str → Str
  | _, [] => []
  | 0, s => s
  | fuel + 1, c :: t =>
    if strStarts (p :: ps) (c :: t) then removeAllAux p ps fuel (t.drop ps.length)
    else c :: removeAllAux p ps fuel t

/-- Python `s.replace(pat, "")`: removes every leftmost non-overlapping
occurrence of `pat` from `s`. -/
def removeAll (pat s : Str) : Str :=
  match pat with
  | [] => s
  | p :: ps => removeAllAux p ps s.length s

/-! ## new.py — DOI + PMID helpers -/

/-- `clean_doi` (new.py lines 22-29).  The argument is the raw
`pub_url` string taken from the publication record. -/
def clean_doi (doi : Str) : Option Str :=
  if doi = [] then none
  else if strStarts "https://doi.org/".data doi then
    some (removeAll "https://doi.org/".data doi)
  else if pyIn "doi.org".data doi then some doi
  else none

/-- One work in an OpenAlex search reply: the parts of the JSON object the
source reads (`work.get("doi", "")` and `work.get("ids", {}).get("pmid")`).
`doi = none` models an absent `doi` key (the `.get` default `""` applies). -/
structure OpenAlexWork where
  doi : Option Str
  pmid : Option Str
deriving DecidableEq

/-- `query_doi_from_openalex` (new.py lines 31-46), as a function of the HTTP
reply: `none` is a raised exception, otherwise status code and results list. -/
def query_doi_from_openalex (resp : Option (Nat × List OpenAlexWork)) :
    Option Str × Option Str :=
  match resp with
  | some (status, results) =>
    if status = 200 then
      match results with
      | w :: _ => (some (removeAll "https://doi.org/".data (w.doi.getD [])), w.pmid)
      | [] => (none, none)
    else (none, none)
  | none => (none, none)

/-- One item in a Crossref works reply; `DOI = none` models an absent key. -/
structure CrossrefItem where
  DOI : Option Str
deriving DecidableEq

/-- `query_doi_from_crossref` (new.py lines 48-58). -/
def query_doi_from_crossref (resp : Option (Nat × List CrossrefItem)) :
    Option Str × Option Str :=
  match resp with
  | some (status, items) =>
    if status = 200 then
      match items with
      | it :: _ => (it.DOI, none)
      | [] => (none, none)
    else (none, none)
  | none => (none, none)

/-- `get_pmid_from_pubmed` (new.py lines 60-73): the reply is the parsed
`idlist`; no status check appears in the source.  Returns `ids[0] if ids
else None`. -/
def get_pmid_from_pubmed (resp : Option (List Str)) : Option Str :=
  match resp with
  | some ids => ids.head?
  | none => none

/-! ## new.py — Altmetric -/

/-- The counter set produced by `extract_altmetric_data` (new.py 104-117),
in source field order. -/
structure AltCounts where
  Twitter : Nat
  Reddit : Nat
  Blogs : Nat
  News : Nat
  Facebook : Nat
  Wikipedia : Nat
  PolicyDocs : Nat
deriving DecidableEq

/-- The raw Altmetric JSON body: each field the source reads, `none` when the
key is absent (the `.get` defaults apply). -/
structure AltBody where
  id : Option Nat
  score : Option Int
  cited_by_tweeters_count : Option Nat
  cited_by_rdts_count : Option Nat
  cited_by_feeds_count : Option Nat
  cited_by_msm_count : Option Nat
  cited_by_fbwalls_count : Option Nat
  cited_by_wikipedia_count : Option Nat
  cited_by_policy_count : Option Nat
deriving DecidableEq

/-- The dictionary built by `extract_altmetric_data`. -/
structure AltSummary where
  altmetric_id : Option Nat
  score : Int
  counts : AltCounts
deriving DecidableEq

/-- `extract_altmetric_data` (new.py lines 104-117). -/
def extract_altmetric_data (data : AltBody) : AltSummary :=
  { altmetric_id := data.id
    score := data.score.getD 0
    counts :=
      { Twitter := data.cited_by_tweeters_count.getD 0
        Reddit := data.cited_by_rdts_count.getD 0
        Blogs := data.cited_by_feeds_count.getD 0
        News := data.cited_by_msm_count.getD 0
        Facebook := data.cited_by_fbwalls_count.getD 0
        Wikipedia := data.cited_by_wikipedia_count.getD 0
        PolicyDocs := data.cited_by_policy_count.getD 0 } }

/-- The two Altmetric HTTP replies a paper can trigger (DOI query, then the
PMID fallback query). -/
structure AltEnv where
  doiResp : Option (Nat × AltBody)
  pmidResp : Option (Nat × AltBody)
deriving DecidableEq

/-- `get_altmetric_by_pmid` (new.py lines 92-102). -/
def get_altmetric_by_pmid (resp : Option (Nat × AltBody)) : Option AltSummary :=
  match resp with
  | some (status, body) =>
    if status = 200 then some (extract_altmetric_data body) else none
  | none => none

/-- `get_altmetric_summary` (new.py lines 76-90), called as in `process_author`
(a miss-log list is supplied).  The second component records whether the title
was appended to `altmetric_404_log` (the source also requires `title` to be
truthy for the append). -/
def get_altmetric_summary (env : AltEnv) (title : Str) (pmid : Option Str) :
    Option AltSummary × Bool :=
  match env.doiResp with
  | some (status, body) =>
    if status = 200 then (some (extract_altmetric_data body), false)
    else if status = 404 then
      ((if pyTruthy pmid then get_altmetric_by_pmid env.pmidResp else none),
        title ≠ [])
    else (none, false)
  | none => (none, false)

/-! ## new.py — the open-access cascade stages -/

/-- `is_journal_in_doaj` (new.py lines 119-127, repeated verbatim at 180-188).
The reply carries the status code and the value of the `total` key when
present (`none` models an absent key). -/
def is_journal_in_doaj (resp : Option (Nat × Option Nat)) :
    Option Bool × Option Str :=
  match resp with
  | some (status, total) =>
    if status = 200 ∧ total.isSome = true then (some true, some "doaj".data)
    else (none, none)
  | none => (none, none)

/-- The DOI allow-list of `is_in_core_repository` (new.py line 134). -/
def core_indexed_doi_starts : List Str :=
  ["10.5281".data, "10.31235".data, "10.1101".data, "10.6084".data]

/-- `is_in_core_repository` (new.py lines 130-139, repeated at 191-200).
Pure: no HTTP call occurs. -/
def is_in_core_repository (doi : Option Str) : Option Bool × Option Str :=
  if pyTruthy doi = false then (none, none)
  else if core_indexed_doi_starts.any (fun p => strStarts p (doi.getD [])) then
    (some true, some "mocked_core".data)
  else (none, none)

/-- The parts of an Unpaywall reply body the source reads; `none` models an
absent key (the `.get` defaults apply). -/
structure UnpaywallBody where
  is_oa : Option Bool
  oa_status : Option Str
deriving DecidableEq

/-- `get_open_access_status_unpaywall` (new.py lines 203-212; the identical
`get_open_access_status` at 142-151 is never called by the pipeline). -/
def get_open_access_status_unpaywall (resp : Option (Nat × UnpaywallBody)) :
    Option Bool × Option Str :=
  match resp with
  | some (status, data) =>
    if status = 200 then
      (some (data.is_oa.getD false), some (data.oa_status.getD "unknown".data))
    else (none, none)
  | none => (none, none)

/-- `get_open_access_status_crossref_license` (new.py lines 215-225).  The
reply carries the `message.license` list; each entry is its `URL` value
(`none` models an absent `URL` key, defaulted to `""`). -/
def get_open_access_status_crossref_license
    (resp : Option (Nat × List (Option Str))) : Option Bool × Option Str :=
  match resp with
  | some (status, licenses) =>
    if status = 200 then
      match licenses with
      | l :: _ => (some true, some (l.getD []))
      | [] => (none, none)
    else (none, none)
  | none => (none, none)

/-- The preprint-server substrings (new.py line 231; line 166 is identical). -/
def preprint_sources : List Str :=
  ["arxiv".data, "biorxiv".data, "medrxiv".data, "ssrn".data, "osf".data,
    "researchsquare".data, "preprints".data]

/-- `is_preprint_venue` (new.py lines 228-236).  Pure.  Note it returns
`(False, None)` — not `None` — when it does not fire. -/
def is_preprint_venue (venue : Str) (doi : Option Str) : Bool × Option Str :=
  if pyTruthy doi then (false, none)
  else if venue ≠ [] then
    match preprint_sources.find? (fun src => pyIn src (lowerStr venue)) with
    | some src => (true, some src)
    | none => (false, none)
  else (false, none)

/-- `get_open_access_from_oa_button` (new.py lines 239-250).  The reply
carries `data.data.url` (`none` models an absent or null value). -/
def get_open_access_from_oa_button (resp : Option (Nat × Option Str)) :
    Option Bool × Option Str :=
  match resp with
  | some (status, link) =>
    if status = 200 then
      match link with
      | some (c :: t) => (some true, some (c :: t))
      | _ => (none, none)
    else (none, none)
  | none => (none, none)

/-- The HTTP replies the four networked cascade stages would receive for one
`(doi, venue)` query. -/
structure OAEnv where
  doaj : Option (Nat × Option Nat)
  unpaywall : Option (Nat × UnpaywallBody)
  crossref : Option (Nat × List (Option Str))
  oaButton : Option (Nat × Option Str)
deriving DecidableEq

/-- Python `f"{source}"` applied to an optional string. -/
def fmtSrc : Option Str → Str
  | some s => s
  | none => "None".data

/-- `get_combined_open_access_status` (new.py lines 253-278). -/
def get_combined_open_access_status (env : OAEnv) (doi : Option Str)
    (venue : Str) : Bool × Str :=
  match is_journal_in_doaj env.doaj with
  | (some oa, _) => (oa, "doaj".data)
  | (none, _) =>
    match is_in_core_repository doi with
    | (some oa, src) => (oa, "core:".data ++ fmtSrc src)
    | (none, _) =>
      match get_open_access_status_unpaywall env.unpaywall with
      | (some oa, src) => (oa, "unpaywall:".data ++ fmtSrc src)
      | (none, _) =>
        match get_open_access_status_crossref_license env.crossref with
        | (some oa, src) => (oa, "crossref_license:".data ++ fmtSrc src)
        | (none, _) =>
          match is_preprint_venue venue doi with
          | (true, src) => (true, "preprint:".data ++ fmtSrc src)
          | (false, _) =>
            match get_open_access_from_oa_button env.oaButton with
            | (some oa, src) => (oa, "oa_button:".data ++ fmtSrc src)
            | (none, _) => (false, "unknown".data)

/-! ## new.py — classification helpers -/

/-- `tag_keywords` (new.py lines 154-155): `any(k in text.lower() for k in
keyword_list)`.  Only the text is lower-cased. -/
def tag_keywords (text : Str) (keyword_list : List Str) : Bool :=
  keyword_list.any (fun k => pyIn k (lowerStr text))

/-- `has_media_mentions` (new.py lines 157-161). -/
def has_media_mentions (altmetric : Option AltSummary) : Bool :=
  match altmetric with
  | none => false
  | some a =>
    [a.counts.News, a.counts.Blogs, a.counts.PolicyDocs, a.counts.Facebook,
      a.counts.Wikipedia].any (fun n => decide (0 < n))

/-- `is_preprint` (new.py lines 163-167). -/
def is_preprint (venue : Str) (doi : Option Str) : Bool :=
  if pyTruthy doi then false
  else if venue ≠ [] then
    preprint_sources.any (fun src => pyIn src (lowerStr venue))
  else false

/-- `classify_publication_type` (new.py lines 306-314). -/
def classify_publication_type (doi : Option Str) (venue : Str)
    (oa_flag : Bool) : Str :=
  if is_preprint venue doi then "Preprint".data
  else if pyTruthy doi = true ∧ oa_flag = true then "Open Access".data
  else if pyTruthy doi then "Published".data
  else "Unknown".data

/-- `refine_open_access_label` (new.py lines 324-336). -/
def refine_open_access_label (is_oa : Bool) (oa_status : Str) : Str :=
  if is_oa = false ∨ oa_status = "closed".data then "Closed".data
  else if oa_status = "gold".data then "Gold OA".data
  else if oa_status = "green".data then "Green OA".data
  else if oa_status = "hybrid".data then "Hybrid OA".data
  else if oa_status = "bronze".data then "Bronze OA".data
  else "Unknown OA".data

/-- `public_health_keywords` (new.py lines 427-433). -/
def public_health_keywords : List Str :=
  ["public health".data, "infectious disease".data, "epidemiology".data,
    "mathematical modeling".data, "COVID-19".data, "cholera".data,
    "malaria".data, "pandemic".data, "outbreak".data,
    "disease mitigation".data, "early warning systems".data,
    "community response".data, "health systems".data, "health equity".data,
    "vaccination".data, "surveillance".data,
    "data-driven decision-making".data, "risk communication".data,
    "contact tracing".data, "behavior change".data, "public engagement".data,
    "intervention".data, "awareness".data]

/-- `capacity_building_keywords` (new.py lines 435-441). -/
def capacity_building_keywords : List Str :=
  ["training".data, "capacity".data, "leadership".data, "sustainability".data,
    "skills development".data, "education".data, "data science training".data,
    "epidemiological training".data, "south-south collaboration".data,
    "research network".data, "mentorship".data, "interdisciplinary teams".data,
    "technology transfer".data, "local expertise".data,
    "workforce development".data, "collaborative learning".data,
    "public health training".data, "AI and data innovation".data,
    "institutional strengthening".data, "infrastructure building".data]

/-! ## new.py — the per-paper processing loop (`process_author`) -/

/-- One publication dictionary as built by `get_scholar_publications`
(new.py lines 282-304): every key is always present there, so the fields are
total.  `doi` is the raw `pub_url` string. -/
structure Work where
  title : Str
  year : Str
  authors : Str
  venue : Str
  citations : Nat
  doi : Str
deriving DecidableEq

/-- The HTTP replies the identifier-resolution calls for one paper would
receive (OpenAlex, Crossref, PubMed). -/
structure ResolveEnv where
  openalex : Option (Nat × List OpenAlexWork)
  crossref : Option (Nat × List CrossrefItem)
  pubmed : Option (List Str)
deriving DecidableEq

/-- The identifier-resolution block of the loop body (new.py lines 364-373):
`clean_doi` on the raw field, then OpenAlex, then Crossref for the DOI, and
PubMed for a still-missing PMID. -/
def resolveIds (env : ResolveEnv) (raw_doi : Str) : Option Str × Option Str :=
  let doi := clean_doi raw_doi
  let dp : Option Str × Option Str :=
    if pyTruthy doi then (doi, none)
    else
      let q := query_doi_from_openalex env.openalex
      if pyTruthy q.1 then q
      else ((query_doi_from_crossref env.crossref).1, q.2)
  let pmid := if pyTruthy dp.2 then dp.2 else get_pmid_from_pubmed env.pubmed
  (dp.1, pmid)

/-- One output row as appended in `process_author` (new.py lines 387-411). -/
structure Record where
  Author : Str
  PaperTitle : Str
  Year : Str
  Citations : Nat
  DOI : Str
  PMID : Option Str
  Authors : Str
  Journal : Str
  AltmetricScore : Int
  TwitterMentions : Nat
  RedditMentions : Nat
  NewsMentions : Nat
  BlogMentions : Nat
  FacebookMentions : Nat
  WikipediaMentions : Nat
  PolicyMentions : Nat
  MediaMentioned : Bool
  OpenAccess : Bool
  OAStatus : Str
  Preprint : Bool
  PublicationType : Str
  PublicHealthImpact : Bool
  CapacityBuilding : Bool
deriving DecidableEq

/-- One paper together with all external replies its processing would see. -/
structure WorkEnv where
  work : Work
  resolveEnv : ResolveEnv
  altEnv : AltEnv
  oaEnv : OAEnv
deriving DecidableEq

/-- The record built for one paper by the loop body (new.py lines 379-411),
factored out of the loop. -/
def mkRecord (author_name : Str) (we : WorkEnv) : Record :=
  let ids := resolveIds we.resolveEnv we.work.doi
  let doi := ids.1
  let pmid := ids.2
  let altmetric := (get_altmetric_summary we.altEnv we.work.title pmid).1
  let counts : AltCounts :=
    match altmetric with
    | some a => a.counts
    | none => ⟨0, 0, 0, 0, 0, 0, 0⟩
  let oaPair := get_combined_open_access_status we.oaEnv doi we.work.venue
  { Author := author_name
    PaperTitle := we.work.title
    Year := we.work.year
    Citations := we.work.citations
    DOI :=
      match doi with
      | some (c :: t) => "https://doi.org/".data ++ (c :: t)
      | _ => "N/A".data
    PMID := pmid
    Authors := we.work.authors
    Journal := we.work.venue
    AltmetricScore :=
      match altmetric with
      | some a => a.score
      | none => 0
    TwitterMentions := counts.Twitter
    RedditMentions := counts.Reddit
    NewsMentions := counts.News
    BlogMentions := counts.Blogs
    FacebookMentions := counts.Facebook
    WikipediaMentions := counts.Wikipedia
    PolicyMentions := counts.PolicyDocs
    MediaMentioned := has_media_mentions altmetric
    OpenAccess := oaPair.1
    OAStatus := oaPair.2
    Preprint := is_preprint we.work.venue doi
    PublicationType := classify_publication_type doi we.work.venue oaPair.1
    PublicHealthImpact := tag_keywords we.work.title public_health_keywords
    CapacityBuilding := tag_keywords we.work.title capacity_building_keywords }

/-- The `for work in works` loop of `process_author` (new.py lines 358-412):
returns the `results` list and the `altmetric_404_titles` list.  A paper with
neither DOI nor PMID after resolution is skipped (`continue`, line 377). -/
def process_author_results (author_name : Str) :
    List WorkEnv → List Record × List Str
  | [] => ([], [])
  | we :: rest =>
    let ids := resolveIds we.resolveEnv we.work.doi
    let tail := process_author_results author_name rest
    if pyTruthy ids.1 = false ∧ pyTruthy ids.2 = false then tail
    else
      let altres := get_altmetric_summary we.altEnv we.work.title ids.2
      (mkRecord author_name we :: tail.1,
        (if altres.2 then [we.work.title] else []) ++ tail.2)

/-- A paper survives identifier resolution (the negation of the skip
condition at new.py line 375). -/
def resolvable (we : WorkEnv) : Bool :=
  pyTruthy (resolveIds we.resolveEnv we.work.doi).1 ||
    pyTruthy (resolveIds we.resolveEnv we.work.doi).2

/-! ## scraping.py — the funding aggregator's combination step -/

/-- One funding record as built by the three fetchers in scraping.py.  The
`Year` value is an int or a string at runtime; its representation is
irrelevant to the combination step, which never reads it. -/
structure FundRec where
  Title : Str
  URL : Str
  Deadline : Str
  CallFor : Str
  OppStatus : Str
  EstFunding : Str
  Source : Str
  Year : Str
deriving DecidableEq

instance : Inhabited FundRec := ⟨⟨[], [], [], [], [], [], [], []⟩⟩

/-- The deduplication key `(item['Title'].lower(), item['Source'])`
(scraping.py line 232). -/
def dedupKey (r : FundRec) : Str × Str := (lowerStr r.Title, r.Source)

/-- One assignment `d[k] = v` on a Python dict modelled as an insertion-order
association list: an existing key keeps its position and takes the new value,
a new key is appended. -/
def dictInsert (d : List ((Str × Str) × FundRec)) (k : Str × Str)
    (v : FundRec) : List ((Str × Str) × FundRec) :=
  match d with
  | [] => [(k, v)]
  | (k', v') :: rest =>
    if k' = k then (k', v) :: rest else (k', v') :: dictInsert rest k v

/-- Python `dict.values()` in insertion order. -/
def dictValues (d : List ((Str × Str) × FundRec)) : List FundRec :=
  d.map Prod.snd

/-- `d.get(k)` on the modelled dict. -/
def dictFind (d : List ((Str × Str) × FundRec)) (k : Str × Str) :
    Option FundRec :=
  (d.find? (fun p => decide (p.1 = k))).map Prod.snd

/-- The dict comprehension `{(item['Title'].lower(), item['Source']): item
for item in all_results}` (scraping.py line 232): left-to-right insertion. -/
def combinedDict (all_results : List FundRec) :
    List ((Str × Str) × FundRec) :=
  all_results.foldl (fun d item => dictInsert d (dedupKey item) item) []

/-- `unique_combined` followed by `list(...)` of its values
(scraping.py lines 232-233). -/
def unique_combined (all_results : List FundRec) : List FundRec :=
  dictValues (combinedDict all_results)

/-- A concrete NIH-style funding record, used to exercise the combination
step on a duplicate pair. -/
def sampleFundRecA : FundRec :=
  ⟨"Machine Learning Grant".data, "u1".data, "2024-01-01".data,
    "Research Grant".data, "Awarded".data, "Not listed".data,
    "NIH RePORTER".data, "2024".data⟩

/-- A later-seen duplicate of `sampleFundRecA`: same title up to case, same
source, different remaining fields. -/
def sampleFundRecB : FundRec :=
  ⟨"machine learning grant".data, "u2".data, "2025-02-02".data,
    "Grant".data, "Awarded".data, "Not listed".data,
    "NIH RePORTER".data, "2025".data⟩

/-! ## Bridge definitions for the claims -/

/-- Stage `k` of the cascade (`1` = directory, `2` = repository,
`3` = primary registry, `4` = secondary registry, `5` = preprint heuristic,
`6` = link finder) returns a definitive (non-abstaining) verdict.  For stage
5 the source only acts on a `True` first component (`if oa:`), so that is its
definitive condition. -/
def stageDefinitive (env : OAEnv) (doi : Option Str) (venue : Str)
    (k : Nat) : Bool :=
  if k = 1 then (is_journal_in_doaj env.doaj).1.isSome
  else if k = 2 then (is_in_core_repository doi).1.isSome
  else if k = 3 then (get_open_access_status_unpaywall env.unpaywall).1.isSome
  else if k = 4 then
    (get_open_access_status_crossref_license env.crossref).1.isSome
  else if k = 5 then (is_preprint_venue venue doi).1
  else if k = 6 then (get_open_access_from_oa_button env.oaButton).1.isSome
  else false

/-- The stage a provenance string corresponds to, by its fixed prefix;
`7` for `"unknown"` (total abstention) and for any unrelated string. -/
def provStage (p : Str) : Nat :=
  if p = "doaj".data then 1
  else if strStarts "core:".data p then 2
  else if strStarts "unpaywall:".data p then 3
  else if strStarts "crossref_license:".data p then 4
  else if strStarts "preprint:".data p then 5
  else if strStarts "oa_button:".data p then 6
  else 7

/-- Modelled from the spec: the topic-tag match as C3 states it, comparing
keyword and title case-insensitively on both sides (the source lower-cases
only the title). -/
def tag_keywords_spec (text : Str) (keyword_list : List Str) : Bool :=
  keyword_list.any (fun k => pyIn (lowerStr k) (lowerStr text))

/-! ## Helper lemmas -/

theorem strStarts_append_self (p s : Str) : strStarts p (p ++ s) = true := by
  induction p with
  | nil => rfl
  | cons c cs ih => simp [strStarts, ih]

theorem removeAllAux_of_not_in (p : Char) (ps : Str) :
    ∀ fuel s, s.length ≤ fuel → pyIn (p :: ps) s = false →
      removeAllAux p ps fuel s = s := by
  intro fuel
  induction fuel with
  | zero =>
    intro s hs _
    cases s with
    | nil => rfl
    | cons c t => simp at hs
  | succ m ih =>
    intro s hs hin
    cases s with
    | nil => rfl
    | cons c t =>
      simp only [pyIn, Bool.or_eq_false_iff] at hin
      unfold removeAllAux
      rw [if_neg (by simp [hin.1])]
      have ht : t.length ≤ m := by simp at hs; omega
      rw [ih t ht hin.2]

theorem removeAll_of_prefixed (p : Char) (ps rest : Str)
    (h : pyIn (p :: ps) rest = false) :
    removeAll (p :: ps) ((p :: ps) ++ rest) = rest := by
  show removeAllAux p ps ((p :: ps) ++ rest).length ((p :: ps) ++ rest) = rest
  rw [show ((p :: ps) ++ rest).length = (ps ++ rest).length + 1 from by simp,
    show (p :: ps) ++ rest = p :: (ps ++ rest) from rfl]
  unfold removeAllAux
  rw [if_pos (show strStarts (p :: ps) (p :: (ps ++ rest)) = true from
    strStarts_append_self (p :: ps) rest)]
  have hdrop : (ps ++ rest).drop ps.length = rest := List.drop_left ps rest
  rw [hdrop]
  exact removeAllAux_of_not_in p ps (ps ++ rest).length rest
    (by simp) h

theorem is_journal_in_doaj_some {r : Option (Nat × Option Nat)} {b : Bool}
    {s : Option Str} (h : is_journal_in_doaj r = (some b, s)) : b = true := by
  unfold is_journal_in_doaj at h
  split at h
  · split at h <;> simp_all
  · simp at h

theorem is_in_core_repository_some {d : Option Str} {b : Bool}
    {s : Option Str} (h : is_in_core_repository d = (some b, s)) : b = true := by
  unfold is_in_core_repository at h
  split at h
  · simp at h
  · split at h <;> simp_all

theorem crossref_license_some {r : Option (Nat × List (Option Str))} {b : Bool}
    {s : Option Str}
    (h : get_open_access_status_crossref_license r = (some b, s)) :
    b = true := by
  unfold get_open_access_status_crossref_license at h
  split at h
  · split at h
    · split at h <;> simp_all
    · simp at h
  · simp at h

theorem oa_button_some {r : Option (Nat × Option Str)} {b : Bool}
    {s : Option Str} (h : get_open_access_from_oa_button r = (some b, s)) :
    b = true := by
  unfold get_open_access_from_oa_button at h
  split at h
  · split at h
    · split at h <;> simp_all
    · simp at h
  · simp at h

/-! ## Claims -/

/-- C1.  Open-access cascade precedence: whenever stage `k` returns a
definitive (non-abstaining) verdict, the provenance string of the verdict
returned by `get_combined_open_access_status` corresponds to a stage `≤ k`
— in fact to the earliest definitive stage — never to a later one. -/
theorem cascade_precedence_c1 (env : OAEnv) (doi : Option Str) (venue : Str)
    (k : Nat) (b : Bool) (p : Str)
    (hres : get_combined_open_access_status env doi venue = (b, p))
    (hk : stageDefinitive env doi venue k = true) :
    provStage p ≤ k ∧ stageDefinitive env doi venue (provStage p) = true := by
  unfold get_combined_open_access_status at hres
  split at hres
  next oa x heq1 =>
    injection hres with h1 h2
    subst h2
    have hp : provStage "doaj".data = 1 := rfl
    rw [hp]
    refine ⟨?_, by simp [stageDefinitive, heq1]⟩
    rcases k with _ | m
    · simp [stageDefinitive] at hk
    · omega
  next x heq1 =>
    split at hres
    next oa src heq2 =>
      injection hres with h1 h2
      subst h2
      have hp : provStage ("core:".data ++ fmtSrc src) = 2 := rfl
      rw [hp]
      refine ⟨?_, by simp [stageDefinitive, heq2]⟩
      rcases k with _ | _ | m
      · simp [stageDefinitive] at hk
      · simp [stageDefinitive, heq1] at hk
      · omega
    next x2 heq2 =>
      split at hres
      next oa src heq3 =>
        injection hres with h1 h2
        subst h2
        have hp : provStage ("unpaywall:".data ++ fmtSrc src) = 3 := rfl
        rw [hp]
        refine ⟨?_, by simp [stageDefinitive, heq3]⟩
        rcases k with _ | _ | _ | m
        · simp [stageDefinitive] at hk
        · simp [stageDefinitive, heq1] at hk
        · simp [stageDefinitive, heq2] at hk
        · omega
      next x3 heq3 =>
        split at hres
        next oa src heq4 =>
          injection hres with h1 h2
          subst h2
          have hp : provStage ("crossref_license:".data ++ fmtSrc src) = 4 := rfl
          rw [hp]
          refine ⟨?_, by simp [stageDefinitive, heq4]⟩
          rcases k with _ | _ | _ | _ | m
          · simp [stageDefinitive] at hk
          · simp [stageDefinitive, heq1] at hk
          · simp [stageDefinitive, heq2] at hk
          · simp [stageDefinitive, heq3] at hk
          · omega
        next x4 heq4 =>
          split at hres
          next src heq5 =>
            injection hres with h1 h2
            subst h2
            have hp : provStage ("preprint:".data ++ fmtSrc src) = 5 := rfl
            rw [hp]
            refine ⟨?_, by simp [stageDefinitive, heq5]⟩
            rcases k with _ | _ | _ | _ | _ | m
            · simp [stageDefinitive] at hk
            · simp [stageDefinitive, heq1] at hk
            · simp [stageDefinitive, heq2] at hk
            · simp [stageDefinitive, heq3] at hk
            · simp [stageDefinitive, heq4] at hk
            · omega
          next x5 heq5 =>
            split at hres
            next oa src heq6 =>
              injection hres with h1 h2
              subst h2
              have hp : provStage ("oa_button:".data ++ fmtSrc src) = 6 := rfl
              rw [hp]
              refine ⟨?_, by simp [stageDefinitive, heq6]⟩
              rcases k with _ | _ | _ | _ | _ | _ | m
              · simp [stageDefinitive] at hk
              · simp [stageDefinitive, heq1] at hk
              · simp [stageDefinitive, heq2] at hk
              · simp [stageDefinitive, heq3] at hk
              · simp [stageDefinitive, heq4] at hk
              · simp [stageDefinitive, heq5] at hk
              · omega
            next x6 heq6 =>
              exfalso
              rcases k with _ | _ | _ | _ | _ | _ | _ | m
              · simp [stageDefinitive] at hk
              · simp [stageDefinitive, heq1] at hk
              · simp [stageDefinitive, heq2] at hk
              · simp [stageDefinitive, heq3] at hk
              · simp [stageDefinitive, heq4] at hk
              · simp [stageDefinitive, heq5] at hk
              · simp [stageDefinitive, heq6] at hk
              · simp [stageDefinitive] at hk

/-- Witness for C1: stages 1 and 2 abstain, stage 3 (the primary registry)
answers open/gold; the verdict is `(true, "unpaywall:gold")`, whose
provenance is stage 3. -/
theorem cascade_precedence_c1_witness :
    get_combined_open_access_status
        ⟨none, some (200, ⟨some true, some "gold".data⟩), none, none⟩ none [] =
      (true, "unpaywall:gold".data) ∧
    stageDefinitive
        ⟨none, some (200, ⟨some true, some "gold".data⟩), none, none⟩ none [] 3 =
      true ∧
    provStage "unpaywall:gold".data ≤ 3 ∧
    stageDefinitive
        ⟨none, some (200, ⟨some true, some "gold".data⟩), none, none⟩ none []
        (provStage "unpaywall:gold".data) = true :=
  ⟨by decide, by decide,
    cascade_precedence_c1 _ none [] 3 true "unpaywall:gold".data (by decide)
      (by decide)⟩

/-- C2.  Directory-membership stage: any structurally valid directory reply
(HTTP 200 with a `total` field, whatever its value — even zero hits)
short-circuits the cascade with `(true, "doaj")`; the verdict does not depend
on the other stages' replies, the DOI or the venue. -/
theorem doaj_short_circuit_c2 (env : OAEnv) (doi : Option Str) (venue : Str)
    (total : Nat) (h : env.doaj = some (200, some total)) :
    get_combined_open_access_status env doi venue = (true, "doaj".data) := by
  unfold get_combined_open_access_status
  rw [show is_journal_in_doaj env.doaj = (some true, some "doaj".data) from by
    rw [h]; rfl]

/-- Witness for C2: a directory reply with zero hits, while the registry
would have said closed, still yields `(true, "doaj")`. -/
theorem doaj_short_circuit_c2_witness :
    (⟨some (200, some 0), some (200, ⟨some false, some "closed".data⟩), none,
        none⟩ : OAEnv).doaj = some (200, some 0) ∧
    get_combined_open_access_status
        ⟨some (200, some 0), some (200, ⟨some false, some "closed".data⟩),
          none, none⟩ (some "10.1234/x".data) "Some Journal".data =
      (true, "doaj".data) :=
  ⟨rfl, doaj_short_circuit_c2 _ _ _ 0 rfl⟩

/-- C3 counterexample.  The claim says keyword and title are both compared
case-insensitively; in the source only the title is lower-cased, so the list
keyword `"COVID-19"` can never match.  For the title `"COVID-19"` the source
tag is `false` while the claimed (both-sides case-insensitive) match is
`true`. -/
theorem tag_keywords_c3_counterexample :
    tag_keywords "COVID-19".data public_health_keywords = false ∧
    tag_keywords_spec "COVID-19".data public_health_keywords = true := by
  constructor
  · decide
  · decide

/-- C3 amended.  The topic-tag boolean is true iff some keyword of the list
occurs verbatim in the lower-cased title (case-insensitive with respect to
the title only; keywords containing upper-case letters can never match).
The two tags are independent and not mutually exclusive: the title
`"public health training"` carries both. -/
theorem tag_keywords_amended_c3 :
    (∀ text keyword_list, tag_keywords text keyword_list = true ↔
      ∃ k ∈ keyword_list, pyIn k (lowerStr text) = true) ∧
    tag_keywords "public health training".data public_health_keywords = true ∧
    tag_keywords "public health training".data capacity_building_keywords =
      true := by
  refine ⟨fun text keyword_list => ?_, by decide, by decide⟩
  simp [tag_keywords, List.any_eq_true]

/-- C4 counterexample.  `clean_doi` strips only the exact prefix
`"https://doi.org/"`; a DOI in the `dx.doi.org` resolver-URL form merely
contains `"doi.org"`, so it is returned unchanged — still a resolver URL,
not the bare identifier. -/
theorem clean_doi_c4_counterexample :
    clean_doi "https://dx.doi.org/10.1234/abc".data =
      some "https://dx.doi.org/10.1234/abc".data ∧
    strStarts "https://".data "https://dx.doi.org/10.1234/abc".data = true ∧
    pyIn "doi.org/".data "https://dx.doi.org/10.1234/abc".data = true := by
  refine ⟨by decide, by decide, by decide⟩

/-- C4 amended.  For an input that starts with the exact resolver prefix
`"https://doi.org/"` and whose remainder contains no further occurrence of
that prefix, `clean_doi` returns exactly the remainder.  (Inputs that merely
contain `"doi.org"` elsewhere are returned unchanged and may remain in
resolver-URL form.) -/
theorem clean_doi_amended_c4 (rest : Str)
    (h : pyIn "https://doi.org/".data rest = false) :
    clean_doi ("https://doi.org/".data ++ rest) = some rest := by
  unfold clean_doi
  rw [if_neg (by
    intro hc
    rw [List.append_eq_nil] at hc
    exact absurd hc.1 (by decide))]
  rw [if_pos (strStarts_append_self "https://doi.org/".data rest)]
  exact congrArg some (removeAll_of_prefixed 'h' "ttps://doi.org/".data rest h)

/-- Witness for C4 amended: the resolver-URL form of `10.1234/abc` cleans to
the bare identifier. -/
theorem clean_doi_amended_c4_witness :
    pyIn "https://doi.org/".data "10.1234/abc".data = false ∧
    clean_doi ("https://doi.org/".data ++ "10.1234/abc".data) =
      some "10.1234/abc".data :=
  ⟨by decide, clean_doi_amended_c4 "10.1234/abc".data (by decide)⟩

/-- C5 counterexample.  `refine_open_access_label` also takes the open flag:
when the flag is false the label is `"Closed"` regardless of the tier, so an
unrecognized non-closed tier does not map to `"Unknown OA"`, and `"gold"`
does not map to `"Gold OA"`. -/
theorem refine_label_c5_counterexample :
    refine_open_access_label false "weird".data = "Closed".data ∧
    "Closed".data ≠ "Unknown OA".data ∧
    refine_open_access_label false "gold".data = "Closed".data ∧
    "Closed".data ≠ "Gold OA".data := by
  refine ⟨by decide, by decide, by decide, by decide⟩

/-- C5 amended.  When the open flag is false the label is always `"Closed"`;
when it is true, `closed ↦ Closed`, `gold ↦ Gold OA`, `green ↦ Green OA`,
`hybrid ↦ Hybrid OA`, `bronze ↦ Bronze OA`, and every other tier string maps
to `"Unknown OA"`. -/
theorem refine_label_amended_c5 (oa_status : Str) :
    refine_open_access_label false oa_status = "Closed".data ∧
    refine_open_access_label true oa_status =
      (if oa_status = "closed".data then "Closed".data
       else if oa_status = "gold".data then "Gold OA".data
       else if oa_status = "green".data then "Green OA".data
       else if oa_status = "hybrid".data then "Hybrid OA".data
       else if oa_status = "bronze".data then "Bronze OA".data
       else "Unknown OA".data) := by
  constructor
  · simp [refine_open_access_label]
  · unfold refine_open_access_label
    by_cases h1 : oa_status = "closed".data <;> simp [h1]

/-- C6.  Total-abstention default: when every one of the six cascade stages
abstains (no definitive signal — network failure and malformed bodies
included, since they yield the same abstaining stage values), the combined
verdict is exactly `(false, "unknown")`. -/
theorem cascade_default_c6 (env : OAEnv) (doi : Option Str) (venue : Str)
    (h : ∀ i, stageDefinitive env doi venue i = false) :
    get_combined_open_access_status env doi venue =
      (false, "unknown".data) := by
  unfold get_combined_open_access_status
  split
  next oa x heq => exact absurd (h 1) (by simp [stageDefinitive, heq])
  next x heq =>
    split
    next oa src heq2 => exact absurd (h 2) (by simp [stageDefinitive, heq2])
    next x2 heq2 =>
      split
      next oa src heq3 => exact absurd (h 3) (by simp [stageDefinitive, heq3])
      next x3 heq3 =>
        split
        next oa src heq4 =>
          exact absurd (h 4) (by simp [stageDefinitive, heq4])
        next x4 heq4 =>
          split
          next src heq5 =>
            exact absurd (h 5) (by simp [stageDefinitive, heq5])
          next x5 heq5 =>
            split
            next oa src heq6 =>
              exact absurd (h 6) (by simp [stageDefinitive, heq6])
            next x6 heq6 => rfl

/-- Witness for C6: every reply is a raised exception (`none`), the DOI is
absent and the venue empty, so all six stages abstain and the verdict is
`(false, "unknown")`. -/
theorem cascade_default_c6_witness :
    get_combined_open_access_status ⟨none, none, none, none⟩ none [] =
      (false, "unknown".data) := by
  apply cascade_default_c6
  intro i
  unfold stageDefinitive
  repeat' split
  all_goals rfl

/-- C7.  Unresolvable papers are dropped: the records produced by the
`process_author` loop are exactly one record per paper that survives
identifier resolution, in order; a paper with neither DOI nor PMID after
resolution contributes nothing to the output. -/
theorem skip_unresolvable_c7 (author_name : Str) (works : List WorkEnv) :
    (process_author_results author_name works).1 =
      (works.filter resolvable).map (mkRecord author_name) := by
  induction works with
  | nil => rfl
  | cons we rest ih =>
    simp only [process_author_results, List.filter_cons]
    by_cases h : resolvable we = true
    · have hc : ¬(pyTruthy (resolveIds we.resolveEnv we.work.doi).1 = false ∧
          pyTruthy (resolveIds we.resolveEnv we.work.doi).2 = false) := by
        simp only [resolvable, Bool.or_eq_true] at h
        rcases h with h | h <;> simp [h]
      rw [if_neg hc, if_pos h]
      simp [ih]
    · have hb : resolvable we = false := by simp at h; exact h
      have hc : pyTruthy (resolveIds we.resolveEnv we.work.doi).1 = false ∧
          pyTruthy (resolveIds we.resolveEnv we.work.doi).2 = false := by
        simpa [resolvable, Bool.or_eq_false_iff] using hb
      rw [if_pos hc, if_neg (by simp [hb]), ih]

/-- C8.  Media-mentioned flag: true iff one of the News, Blogs, Policy Docs,
Facebook or Wikipedia counters is positive; the Twitter and Reddit counters
never influence it.  In particular the claim's two concrete counter sets
evaluate to `true` and `false` respectively. -/
theorem media_mentions_c8 :
    (∀ a : AltSummary, has_media_mentions (some a) = true ↔
      (0 < a.counts.News ∨ 0 < a.counts.Blogs ∨ 0 < a.counts.PolicyDocs ∨
        0 < a.counts.Facebook ∨ 0 < a.counts.Wikipedia)) ∧
    (∀ (a : AltSummary) (tw rd : Nat),
      has_media_mentions
          (some { a with counts := { a.counts with Twitter := tw, Reddit := rd } }) =
        has_media_mentions (some a)) ∧
    has_media_mentions (some ⟨none, 0, ⟨5, 3, 0, 0, 0, 0, 1⟩⟩) = true ∧
    has_media_mentions (some ⟨none, 0, ⟨5, 0, 0, 0, 0, 0, 0⟩⟩) = false := by
  refine ⟨fun a => ?_, fun a tw rd => rfl, by decide, by decide⟩
  simp [has_media_mentions]

/-- C10.  Implicit invariant: a negative combined verdict can only carry the
total-abstention provenance `"unknown"` or a provenance of the primary
registry stage (prefix `"unpaywall:"`); every other stage either reports
open or abstains. -/
theorem negative_provenance_c10 (env : OAEnv) (doi : Option Str) (venue : Str)
    (b : Bool) (p : Str)
    (hres : get_combined_open_access_status env doi venue = (b, p))
    (hb : b = false) :
    p = "unknown".data ∨ strStarts "unpaywall:".data p = true := by
  subst hb
  unfold get_combined_open_access_status at hres
  split at hres
  next oa x heq =>
    injection hres with h1 h2
    rw [is_journal_in_doaj_some heq] at h1
    simp at h1
  next x heq =>
    split at hres
    next oa src heq2 =>
      injection hres with h1 h2
      rw [is_in_core_repository_some heq2] at h1
      simp at h1
    next x2 heq2 =>
      split at hres
      next oa src heq3 =>
        injection hres with h1 h2
        subst h2
        right
        rfl
      next x3 heq3 =>
        split at hres
        next oa src heq4 =>
          injection hres with h1 h2
          rw [crossref_license_some heq4] at h1
          simp at h1
        next x4 heq4 =>
          split at hres
          next src heq5 =>
            injection hres with h1 h2
            simp at h1
          next x5 heq5 =>
            split at hres
            next oa src heq6 =>
              injection hres with h1 h2
              rw [oa_button_some heq6] at h1
              simp at h1
            next x6 heq6 =>
              injection hres with h1 h2
              subst h2
              left
              rfl

/-- Witness for C10: the registry answers 200 with `is_oa = false` and tier
`"closed"`, every earlier stage abstains; the verdict is
`(false, "unpaywall:closed")`, whose provenance is the registry stage. -/
theorem negative_provenance_c10_witness :
    get_combined_open_access_status
        ⟨none, some (200, ⟨some false, some "closed".data⟩), none, none⟩
        none [] = (false, "unpaywall:closed".data) ∧
    ("unpaywall:closed".data = "unknown".data ∨
      strStarts "unpaywall:".data "unpaywall:closed".data = true) :=
  ⟨by decide,
    negative_provenance_c10
      ⟨none, some (200, ⟨some false, some "closed".data⟩), none, none⟩
      none [] false "unpaywall:closed".data (by decide) rfl⟩

/-! ## The combination step (claim C9) -/

theorem mem_keys_dictInsert (d : List ((Str × Str) × FundRec)) (k : Str × Str)
    (v : FundRec) (a : Str × Str) :
    a ∈ (dictInsert d k v).map Prod.fst ↔ a ∈ d.map Prod.fst ∨ a = k := by
  induction d with
  | nil => simp [dictInsert]
  | cons p rest ih =>
    obtain ⟨k', v'⟩ := p
    unfold dictInsert
    by_cases h : k' = k
    · subst h
      simp
      tauto
    · rw [if_neg h]
      simp [ih]
      tauto

theorem nodup_keys_dictInsert (d : List ((Str × Str) × FundRec)) (k : Str × Str)
    (v : FundRec) (h : (d.map Prod.fst).Nodup) :
    ((dictInsert d k v).map Prod.fst).Nodup := by
  induction d with
  | nil => simp [dictInsert]
  | cons p rest ih =>
    obtain ⟨k', v'⟩ := p
    simp only [List.map_cons, List.nodup_cons] at h
    unfold dictInsert
    by_cases hk : k' = k
    · subst hk
      simpa using h
    · rw [if_neg hk]
      simp only [List.map_cons, List.nodup_cons]
      refine ⟨?_, ih h.2⟩
      rw [mem_keys_dictInsert]
      push_neg
      exact ⟨h.1, hk⟩

theorem pair_dictInsert (d : List ((Str × Str) × FundRec)) (v : FundRec)
    (h : ∀ p ∈ d, p.1 = dedupKey p.2) :
    ∀ p ∈ dictInsert d (dedupKey v) v, p.1 = dedupKey p.2 := by
  induction d with
  | nil =>
    intro p hp
    simp [dictInsert] at hp
    subst hp
    rfl
  | cons q rest ih =>
    obtain ⟨k', v'⟩ := q
    intro p hp
    unfold dictInsert at hp
    by_cases hk : k' = dedupKey v
    · rw [if_pos hk] at hp
      rcases List.mem_cons.1 hp with h1 | h1
      · subst h1; exact hk
      · exact h _ (List.mem_cons_of_mem _ h1)
    · rw [if_neg hk] at hp
      rcases List.mem_cons.1 hp with h1 | h1
      · subst h1; exact h _ (List.mem_cons_self _ _)
      · exact ih (fun q hq => h q (List.mem_cons_of_mem _ hq)) _ h1

theorem dictFind_dictInsert (d : List ((Str × Str) × FundRec))
    (k0 k : Str × Str) (v : FundRec) :
    dictFind (dictInsert d k0 v) k =
      if k0 = k then some v else dictFind d k := by
  induction d with
  | nil =>
    unfold dictInsert dictFind
    by_cases h : k0 = k <;> simp [List.find?, h]
  | cons p rest ih =>
    obtain ⟨k', v'⟩ := p
    unfold dictInsert
    by_cases hk : k' = k0
    · subst hk
      rw [if_pos rfl]
      by_cases h : k' = k
      · rw [if_pos h]
        unfold dictFind
        rw [List.find?_cons_of_pos _ (by simp [h])]
        rfl
      · rw [if_neg h]
        unfold dictFind
        rw [List.find?_cons_of_neg _ (by simp [h]),
          List.find?_cons_of_neg _ (by simp [h])]
    · rw [if_neg hk]
      by_cases h : k' = k
      · have hk0 : ¬ k0 = k := fun hc => hk (h.trans hc.symm)
        rw [if_neg hk0]
        unfold dictFind
        rw [List.find?_cons_of_pos _ (by simp [h]),
          List.find?_cons_of_pos _ (by simp [h])]
      · unfold dictFind at ih ⊢
        rw [List.find?_cons_of_neg _ (by simp [h]),
          List.find?_cons_of_neg _ (by simp [h])]
        exact ih

theorem dictFind_foldl (l : List FundRec) :
    ∀ (d : List ((Str × Str) × FundRec)) (k : Str × Str),
      dictFind (l.foldl (fun d item => dictInsert d (dedupKey item) item) d) k =
        (l.reverse.find? (fun x => decide (dedupKey x = k))).or (dictFind d k) := by
  induction l with
  | nil => intro d k; simp
  | cons a l ih =>
    intro d k
    simp only [List.foldl_cons, List.reverse_cons, List.find?_append]
    rw [ih, dictFind_dictInsert, Option.or_assoc]
    congr 1
    by_cases h : dedupKey a = k
    · simp [List.find?, h]
    · simp [List.find?, h]

theorem filter_dictValues (d : List ((Str × Str) × FundRec))
    (hpair : ∀ p ∈ d, p.1 = dedupKey p.2)
    (hnodup : (d.map Prod.fst).Nodup) (k : Str × Str) :
    (dictValues d).filter (fun r => decide (dedupKey r = k)) =
      (dictFind d k).toList := by
  induction d with
  | nil => rfl
  | cons p rest ih =>
    obtain ⟨k', v'⟩ := p
    have hk' : k' = dedupKey v' := hpair _ (List.mem_cons_self _ _)
    simp only [List.map_cons, List.nodup_cons] at hnodup
    by_cases h : dedupKey v' = k
    · unfold dictValues dictFind
      simp only [List.map_cons, List.filter_cons]
      rw [if_pos (by simp [h]), List.find?_cons_of_pos _ (by simp [hk', h])]
      have hrest :
          (dictValues rest).filter (fun r => decide (dedupKey r = k)) = [] := by
        rw [List.filter_eq_nil_iff]
        intro r hr
        simp only [dictValues, List.mem_map] at hr
        obtain ⟨q, hq, rfl⟩ := hr
        have h1 : q.1 = dedupKey q.2 := hpair _ (List.mem_cons_of_mem _ hq)
        have h2 : q.1 ≠ k' := by
          intro hc
          exact hnodup.1 (hc ▸ (List.mem_map.2 ⟨q, hq, rfl⟩))
        simp only [decide_eq_true_eq]
        intro hc
        exact h2 (by rw [h1, hc, ← h, ← hk'])
      simpa [dictValues] using hrest
    · unfold dictValues dictFind
      simp only [List.map_cons, List.filter_cons]
      rw [if_neg (by simp [h]), List.find?_cons_of_neg _ (by simp [hk', h])]
      exact ih (fun q hq => hpair _ (List.mem_cons_of_mem _ hq)) hnodup.2

theorem pair_combinedDict (l : List FundRec) :
    ∀ p ∈ combinedDict l, p.1 = dedupKey p.2 := by
  have main : ∀ (l : List FundRec) (d : List ((Str × Str) × FundRec)),
      (∀ p ∈ d, p.1 = dedupKey p.2) →
      ∀ p ∈ l.foldl (fun d item => dictInsert d (dedupKey item) item) d,
        p.1 = dedupKey p.2 := by
    intro l
    induction l with
    | nil => intro d hd; exact hd
    | cons a l ih =>
      intro d hd
      exact ih _ (pair_dictInsert d a hd)
  exact main l [] (by simp)

theorem nodup_combinedDict (l : List FundRec) :
    ((combinedDict l).map Prod.fst).Nodup := by
  have main : ∀ (l : List FundRec) (d : List ((Str × Str) × FundRec)),
      (d.map Prod.fst).Nodup →
      ((l.foldl (fun d item => dictInsert d (dedupKey item) item) d).map
        Prod.fst).Nodup := by
    intro l
    induction l with
    | nil => intro d hd; exact hd
    | cons a l ih =>
      intro d hd
      exact ih _ (nodup_keys_dictInsert d (dedupKey a) a hd)
  exact main l [] (by simp)

/-- C9.  Funding-aggregator deduplication is last-write-wins: if `a` and `b`
are records of the input with the same key (lower-cased title, source), the
combined output contains exactly one record with that key, namely the
last-seen input record `w` carrying that key (`find?` over the reversed
input). -/
theorem dedup_last_write_wins_c9 (l : List FundRec) (a b w : FundRec)
    (ha : a ∈ l) (hb : b ∈ l) (hab : dedupKey a = dedupKey b)
    (hw : l.reverse.find? (fun x => decide (dedupKey x = dedupKey a)) = some w) :
    (unique_combined l).filter (fun r => decide (dedupKey r = dedupKey a)) =
      [w] := by
  have h1 := filter_dictValues (combinedDict l) (pair_combinedDict l)
    (nodup_combinedDict l) (dedupKey a)
  have h2 := dictFind_foldl l [] (dedupKey a)
  rw [show unique_combined l = dictValues (combinedDict l) from rfl, h1,
    show combinedDict l =
      l.foldl (fun d item => dictInsert d (dedupKey item) item) [] from rfl,
    h2, hw]
  rfl

/-- Witness for C9: two records with the same key up to title case and
different remaining fields collapse to one entry, the later-seen record. -/
theorem dedup_last_write_wins_c9_witness :
    sampleFundRecA ∈ [sampleFundRecA, sampleFundRecB] ∧
    sampleFundRecB ∈ [sampleFundRecA, sampleFundRecB] ∧
    dedupKey sampleFundRecA = dedupKey sampleFundRecB ∧
    [sampleFundRecA, sampleFundRecB].reverse.find?
        (fun x => decide (dedupKey x = dedupKey sampleFundRecA)) =
      some sampleFundRecB ∧
    (unique_combined [sampleFundRecA, sampleFundRecB]).filter
        (fun r => decide (dedupKey r = dedupKey sampleFundRecA)) =
      [sampleFundRecB] :=
  ⟨by decide, by decide, by decide, by decide,
    dedup_last_write_wins_c9 [sampleFundRecA, sampleFundRecB]
      sampleFundRecA sampleFundRecB sampleFundRecB
      (by decide) (by decide) (by decide) (by decide)⟩
